import Mathlib

/-!
Verification of the ConanWikiTools pipeline (src/main.py) against its
natural-language specification.

The development shallowly embeds the pieces of the program the claims are
about:

* `parse_thrall_file` / `insert_or_update_data` — the record parser,
  validator and class-partitioned upsert of `PopulateWorker`
  (the second, effective definition in the source, lines 608-701);
* `process_file` (`processCreature` / `processNpc`) — the template
  extractor of `FileProcessorThread`, including its per-field pattern
  searches and the notes cleanup pipeline;
* `retry_request` / `fetch_page_content` — the bounded retry/backoff of
  `ScrapeWorker`;
* `scrapeRun` — the resumable fetch loop of `ScrapeWorker.run` with its
  checkpoint set, saved files and progress emissions;
* `fetch_all_pages` — the deduplicating catalog enumeration.

Strings are modelled as Lean `String` / `List Char`; Python dictionaries
as insertion-ordered association lists; the SQLite store as a function
from table name to list of rows.  Python's `re.search`/`re.sub` are
embedded by direct implementations of the specific patterns the source
uses (each matcher is documented at its definition).
-/

namespace ConanWikiTools

/-! ### Basic string helpers (Python `str` operations) -/

/-- Python's `\s` character class: `[ \t\n\r\x0b\x0c]` (ASCII part). -/
def pyIsSpace (c : Char) : Bool :=
  c = ' ' || c = '\t' || c = '\n' || c = '\r' || c = '\x0b' || c = '\x0c'

def strOf (l : List Char) : String := ⟨l⟩

/-- Python `str.strip()` (whitespace on both ends). -/
def pyStrip (s : String) : String :=
  strOf (((s.toList.dropWhile pyIsSpace).reverse.dropWhile pyIsSpace).reverse)

/-- Python `str.lower()` (ASCII fragment, which covers all uses here). -/
def pyLower (s : String) : String := strOf (s.toList.map Char.toLower)

/-- Python `str.upper()` (ASCII fragment). -/
def pyUpper (s : String) : String := strOf (s.toList.map Char.toUpper)

def pyTitleAux : Bool → List Char → List Char
  | _, [] => []
  | prevAlpha, c :: rest =>
    if c.isAlpha then
      (if prevAlpha then c.toLower else c.toUpper) :: pyTitleAux true rest
    else c :: pyTitleAux false rest

/-- Python `str.title()` (ASCII fragment): first letter of every
alphabetic run uppercased, the rest lowercased. -/
def pyTitle (s : String) : String := strOf (pyTitleAux false s.toList)

/-- `pat` occurs as a contiguous sublist of `l` (Python `pat in s`). -/
def containsSub (pat : List Char) : List Char → Bool
  | [] => pat.isPrefixOf []
  | l@(_ :: rest) => pat.isPrefixOf l || containsSub pat rest

/-- Python `pat in s` for strings. -/
def strContains (s pat : String) : Bool := containsSub pat.toList s.toList

/-- Python `s.startswith(pat)`. -/
def strStartsWith (s pat : String) : Bool := pat.toList.isPrefixOf s.toList

/-! ### Python dictionaries as insertion-ordered association lists -/

abbrev Dict := List (String × String)

def dictGet (d : Dict) (k : String) : Option String :=
  (List.find? (fun p => p.1 = k) d).map (fun p => p.2)

/-- Python `d.get(k, dflt)`. -/
def dictGetD (d : Dict) (k dflt : String) : String := (dictGet d k).getD dflt

/-- Python `d[k] = v`: replace the binding in place, else append. -/
def dictSet (d : Dict) (k v : String) : Dict :=
  if (List.any d (fun p => p.1 = k)) then
    List.map (fun p => if p.1 = k then (k, v) else p) d
  else d ++ [(k, v)]

/-! ### PopulateWorker.parse_thrall_file (src/main.py lines 632-639)

A file is modelled as its list of lines (without trailing newlines:
`line.strip()` removes them anyway and `"=" in line` is unaffected). -/

/-- One iteration of the parse loop: lines without `=` are ignored;
a line with `=` is stripped, split at the first `=`, and the trimmed
lower-cased key is bound to the trimmed value, with `"N/A"` substituted
when the trimmed value is empty (`value.strip() or "N/A"`). -/
def parseStep (data : Dict) (line : String) : Dict :=
  if strContains line "=" then
    let stripped := (pyStrip line).toList
    let key := strOf (stripped.takeWhile (fun c => c ≠ '='))
    let value := strOf ((stripped.dropWhile (fun c => c ≠ '=')).tail)
    let v := pyStrip value
    dictSet data (pyLower (pyStrip key)) (if v = "" then "N/A" else v)
  else data

def parse_thrall_file (lines : List String) : Dict :=
  lines.foldl parseStep []

/-! ### PopulateWorker.insert_or_update_data (src/main.py lines 641-701) -/

/-- One stored row: the 20 canonical fields (all TEXT in the schema). -/
structure Row where
  name : String
  id : String
  class_ : String
  health : String
  strength : String
  agility : String
  vitality : String
  grit : String
  bonus_vitality : String
  level_rate : String
  armor : String
  incoming_damage_reduction : String
  killed_xp : String
  temperament : String
  gender : String
  thrallable : String
  race : String
  faction : String
  description : String
  notes : String
deriving DecidableEq, Repr

/-- The tuple bound to the INSERT's placeholders (lines 687-698):
`data.get(key, "N/A")` for each canonical field (note the space-separated
keys `"bonus vitality"`, `"level rate"`, `"incoming damage reduction"`,
`"killed xp"`). -/
def Row.ofData (data : Dict) : Row where
  name := dictGetD data "name" "N/A"
  id := dictGetD data "id" "N/A"
  class_ := dictGetD data "class" "N/A"
  health := dictGetD data "health" "N/A"
  strength := dictGetD data "strength" "N/A"
  agility := dictGetD data "agility" "N/A"
  vitality := dictGetD data "vitality" "N/A"
  grit := dictGetD data "grit" "N/A"
  bonus_vitality := dictGetD data "bonus vitality" "N/A"
  level_rate := dictGetD data "level rate" "N/A"
  armor := dictGetD data "armor" "N/A"
  incoming_damage_reduction := dictGetD data "incoming damage reduction" "N/A"
  killed_xp := dictGetD data "killed xp" "N/A"
  temperament := dictGetD data "temperament" "N/A"
  gender := dictGetD data "gender" "N/A"
  thrallable := dictGetD data "thrallable" "N/A"
  race := dictGetD data "race" "N/A"
  faction := dictGetD data "faction" "N/A"
  description := dictGetD data "description" "N/A"
  notes := dictGetD data "notes" "N/A"

/-- The `ON CONFLICT(name) DO UPDATE SET` clause (lines 668-686): every
field of the stored row is replaced by the excluded (new) row's value
EXCEPT `name` (the key) and `class` (absent from the SET list). -/
def updateSet (old new : Row) : Row :=
  { old with
    id := new.id
    health := new.health
    strength := new.strength
    agility := new.agility
    vitality := new.vitality
    grit := new.grit
    bonus_vitality := new.bonus_vitality
    level_rate := new.level_rate
    armor := new.armor
    incoming_damage_reduction := new.incoming_damage_reduction
    killed_xp := new.killed_xp
    temperament := new.temperament
    gender := new.gender
    thrallable := new.thrallable
    race := new.race
    faction := new.faction
    description := new.description
    notes := new.notes }

/-- SQLite `INSERT ... ON CONFLICT(name) DO UPDATE` on one table:
if a row with the same (case-sensitive, as in SQLite's default BINARY
collation) name exists it is updated per `updateSet`, else the new row
is appended. -/
def upsertRow (r : Row) (rows : List Row) : List Row :=
  if rows.any (fun q => q.name == r.name) then
    rows.map (fun q => if q.name == r.name then updateSet q r else q)
  else rows ++ [r]

/-- The database: table name → rows. -/
abbrev Store := String → List Row

def stEmpty : Store := fun _ => []

def storeUpsert (st : Store) (t : String) (r : Row) : Store :=
  fun u => if u = t then upsertRow r (st u) else st u

def requiredFields : List String := ["name", "id", "class"]

/-- `not data.get(field) or data[field] == 'N/A'`: the field is absent,
empty (falsy) or the sentinel. -/
def fieldInvalid (data : Dict) (f : String) : Bool :=
  match dictGet data f with
  | none => true
  | some v => v = "" || v = "N/A"

def classWhitelist : List String :=
  ["alchemist", "archer", "armorer", "bearer", "blacksmith",
   "carpenter", "cook", "fighter", "performer", "priest",
   "smelter", "sorcerer", "tanner", "taskmaster", "pet", "animal", "npc"]

/-- `thrall_class.title() if thrall_class not in ["pet","animal","npc"]
else ("Pets" if ... else "Animals" if ... else "NPCs")` (line 660). -/
def tableNameOf (thrall_class : String) : String :=
  if thrall_class ∉ (["pet", "animal", "npc"] : List String) then
    pyTitle thrall_class
  else if thrall_class = "pet" then "Pets"
  else if thrall_class = "animal" then "Animals"
  else "NPCs"

/-- `PopulateWorker.insert_or_update_data` (lines 641-701): returns the
status string the Python function returns, paired with the store after
the call (unchanged on the two validation failures). -/
def insert_or_update_data (data : Dict) (st : Store) : String × Store :=
  let thrall_class := pyLower (dictGetD data "class" "")
  match requiredFields.find? (fun f => fieldInvalid data f) with
  | some f => ("INVALID DATA: Missing or invalid " ++ pyUpper f, st)
  | none =>
    if thrall_class ∉ classWhitelist then
      ("INVALID CLASS: " ++ pyUpper thrall_class, st)
    else
      ("SUCCESS", storeUpsert st (tableNameOf thrall_class) (Row.ofData data))

/-! ### ScrapeWorker.retry_request (src/main.py lines 175-192)

One attempt's outcome: an HTTP response with a status code, or a raised
`requests.RequestException`.  A `response 200 c` carries the payload the
caller extracts from it (`fetch_page_content` returns
`page_info['revisions'][0]['*'] if 'revisions' in page_info else None`;
that extraction is modelled by the `Option String` inside the response). -/
inductive ReqResult where
  | response (status : Nat) (content : Option String)
  | exn (msg : String)
deriving DecidableEq

/-- `response.status_code == 200`: the only outcome `retry_request`
returns on; every other response status and every exception fall through
to the retry path. -/
def ReqResult.isSuccess : ReqResult → Bool
  | .response 200 _ => true
  | _ => false

/-- The body of `retry_request`'s `for attempt in range(max_retries)`
loop, with `remaining` iterations left and `attempt` the current index.
Returns the response payload (`some` = returned, `none` = the final
`raise`) together with the list of sleep durations performed, in order
(`backoff_factor ** attempt`, slept only when `attempt < max_retries - 1`). -/
def retryGo (outcomes : Nat → ReqResult) (backoff_factor : Nat) (attempt : Nat) :
    Nat → Option (Option String) × List Nat
  | 0 => (none, [])
  | remaining + 1 =>
    let failPath : Option (Option String) × List Nat :=
      if remaining = 0 then (none, [])
      else
        let r := retryGo outcomes backoff_factor (attempt + 1) remaining
        (r.1, backoff_factor ^ attempt :: r.2)
    match outcomes attempt with
    | .response status c =>
      if status = 200 then (some c, []) else failPath
    | .exn _ => failPath

/-- `retry_request` with its default arguments `max_retries=3`,
`backoff_factor=2`. -/
def retry_request (outcomes : Nat → ReqResult) : Option (Option String) × List Nat :=
  retryGo outcomes 2 0 3

/-- `ScrapeWorker.fetch_page_content` (lines 221-237): on a returned
response, the revision content (or `None` when absent); when
`retry_request` raises, the exception is caught, logged and `None`
returned. -/
def fetch_page_content (outcomes : Nat → ReqResult) : Option String :=
  match (retry_request outcomes).1 with
  | some c => c
  | none => none

/-! ### ScrapeWorker.run (src/main.py lines 245-271) -/

/-- `sanitize_filename` (line 172-173): `re.sub(r'[<>:"/\\|?*]', '_', title)`. -/
def sanitize_filename (title : String) : String :=
  strOf (title.toList.map (fun c =>
    if c = '<' || c = '>' || c = ':' || c = '"' || c = '/' || c = '\\' ||
       c = '|' || c = '?' || c = '*' then '_' else c))

/-- Add to a Python set, modelled as a duplicate-free insertion-ordered
list. -/
def insertSet (s : List String) (x : String) : List String :=
  if x ∈ s then s else s ++ [x]

/-- The worker's observable state during `run`:
`scraped` is `self.scraped_pages` (the checkpoint set),
`pages_scraped` the counter initialised to the checkpoint's size,
`requests` the titles for which a content request was issued,
`files` the `(sanitized filename, content)` pairs written by `save_page`,
`progressEmits` the values passed to `self.progress.emit`, in order. -/
structure ScrapeState where
  scraped : List String
  pages_scraped : Nat
  requests : List String
  files : List (String × String)
  progressEmits : List Nat
deriving Repr

/-- `if content:` — the fetched content counts as a success only when
it is truthy, i.e. neither `None` nor the empty string. -/
def contentTruthy (c : Option String) : Bool :=
  match c with
  | some content => content ≠ ""
  | none => false

/-- One iteration of the `for i, page_title in enumerate(pages)` loop.
A title already in `scraped` hits `continue`: nothing at all happens for
it (in particular no progress emission).  Otherwise the content is
requested; on truthy content the file is saved, the title checkpointed
and the counter bumped; in both cases `int((pages_scraped / total) * 100)`
is then emitted (modelled as exact natural division; the source computes
it through IEEE doubles, which plays no role in the properties proved
here). -/
def scrapeStep (fetch : String → Option String) (total : Nat)
    (st : ScrapeState) (title : String) : ScrapeState :=
  if title ∈ st.scraped then st
  else
    let st1 := { st with requests := st.requests ++ [title] }
    match fetch title with
    | some content =>
      if content = "" then
        { st1 with progressEmits := st1.progressEmits ++ [st1.pages_scraped * 100 / total] }
      else
        let st2 := { st1 with
          files := st1.files ++ [(sanitize_filename title, content)]
          scraped := insertSet st1.scraped title
          pages_scraped := st1.pages_scraped + 1 }
        { st2 with progressEmits := st2.progressEmits ++ [st2.pages_scraped * 100 / total] }
    | none =>
      { st1 with progressEmits := st1.progressEmits ++ [st1.pages_scraped * 100 / total] }

def scrapeRun (fetch : String → Option String) (total : Nat) :
    ScrapeState → List String → ScrapeState
  | st, [] => st
  | st, t :: ts => scrapeRun fetch total (scrapeStep fetch total st t) ts

/-- The whole fetch loop of `run` over a non-empty catalog `pages`, with
the checkpoint (a set: `load_progress` builds `set(...)`, hence the
`dedup`) loaded at start. -/
def runScrape (fetch : String → Option String) (pages checkpoint : List String) :
    ScrapeState :=
  scrapeRun fetch pages.length
    { scraped := checkpoint.dedup
      pages_scraped := checkpoint.dedup.length
      requests := []
      files := []
      progressEmits := [] } pages

/-! ### ScrapeWorker.fetch_all_pages (src/main.py lines 194-219)

The input is, per category, the sequence of listing responses obtained
through the continuation loop, each response being its page of titles. -/

def addTitles (s : List String) (titles : List String) : List String :=
  titles.foldl insertSet s

/-- `fetch_all_pages`: every title of every page of every category is
added to the `all_pages` set; the catalog is that set (as an
insertion-ordered duplicate-free list). -/
def fetch_all_pages (categories : List (List (List String))) : List String :=
  categories.foldl (fun s pages => pages.foldl addTitles s) []

/-! ### FileProcessorThread.process_file (src/main.py lines 479-603)

The per-field `re.search` patterns and the `re.sub` cleanup steps are
embedded as direct implementations of the specific patterns the source
uses.  `re.search` scans start positions left to right; these scanners
do the same. -/

/-- The `(.*?)\n` tail shared by every labeled-value pattern: the lazy
group expands one character at a time until the next character is `\n`,
so it captures exactly the characters before the first newline — and
fails when no newline follows (this is the same with and without
`re.DOTALL`, since the group never gets to contain a newline). -/
def captureToNL (l : List Char) : Option (List Char) :=
  if l.contains '\n' then some (l.takeWhile (fun c => c ≠ '\n')) else none

/-- NPC-schema pattern `lit(.*?)\n` (e.g. `\| name = (.*?)\n`, the
literal spacing being part of the pattern), searched at every start
position left to right. -/
def npcSearch (lit : List Char) : List Char → Option (List Char)
  | [] => none
  | l@(_ :: rest) =>
    if lit.isPrefixOf l then
      match captureToNL (l.drop lit.length) with
      | some g => some g
      | none => npcSearch lit rest
    else npcSearch lit rest

/-- `\s*(.*?)\n`: the greedy `\s*` prefers the longest whitespace prefix
and backtracks one character at a time, so the longer drop is tried
first (`wsCapture rest`) and only on its failure is the capture
attempted at the current position. -/
def wsCapture : List Char → Option (List Char)
  | [] => none
  | c :: rest =>
    if pyIsSpace c then
      match wsCapture rest with
      | some g => some g
      | none => captureToNL (c :: rest)
    else captureToNL (c :: rest)

/-- Creature-schema pattern `\| label\s*=\s*(.*?)\n` matched at one
start position.  For the first `\s*=`: every non-maximal whitespace
prefix is followed by a whitespace character, never `=`, so only
dropping the maximal run and requiring `=` can succeed. -/
def creatureMatchAt (label : List Char) (l : List Char) : Option (List Char) :=
  let pre := '|' :: ' ' :: label
  if pre.isPrefixOf l then
    match (l.drop pre.length).dropWhile pyIsSpace with
    | '=' :: t2 => wsCapture t2
    | _ => none
  else none

def creatureSearch (label : List Char) : List Char → Option (List Char)
  | [] => none
  | l@(_ :: rest) =>
    match creatureMatchAt label l with
    | some g => some g
    | none => creatureSearch label rest

/-- Split at the first newline: (characters before it, rest after it). -/
def takeToNL (l : List Char) : Option (List Char × List Char) :=
  if l.contains '\n' then
    some (l.takeWhile (fun c => c ≠ '\n'), (l.dropWhile (fun c => c ≠ '\n')).tail)
  else none

/-- Characters before the first occurrence of `pat` (the lazy
`(.*?)pat` with `re.DOTALL`). -/
def splitBeforeSub (pat : List Char) : List Char → Option (List Char)
  | [] => if pat.isPrefixOf [] then some [] else none
  | l@(c :: rest) =>
    if pat.isPrefixOf l then some []
    else (splitBeforeSub pat rest).map (fun g => c :: g)

/-- Creature notes pattern `==Notes==\n(.*?)\n==` with `re.DOTALL`:
after the header, the lazy group captures everything up to the first
`\n==`. -/
def creatureNotesSearch : List Char → Option (List Char)
  | [] => none
  | l@(_ :: rest) =>
    if "==Notes==\n".toList.isPrefixOf l then
      match splitBeforeSub "\n==".toList (l.drop 10) with
      | some g => some g
      | none => creatureNotesSearch rest
    else creatureNotesSearch rest

/-- NPC notes pattern `==Notes==\n.*?\n(.*?)\n` with `re.DOTALL`: the
first lazy `.*?\n` consumes through the first newline after the header
(the line right after it) and the group captures the following line.
When fewer than two newlines follow the header the position fails (a
longer `.*?` would leave no newline for the group either) and the scan
moves on. -/
def npcNotesSearch : List Char → Option (List Char)
  | [] => none
  | l@(_ :: rest) =>
    if "==Notes==\n".toList.isPrefixOf l then
      match takeToNL (l.drop 10) with
      | some (_, t2) =>
        match takeToNL t2 with
        | some (g, _) => some g
        | none => npcNotesSearch rest
      | none => npcNotesSearch rest
    else npcNotesSearch rest

/-! ### The notes cleanup pipeline (lines 498-504 and 564-571)

`re.sub` scans left to right; at each position a match is replaced and
scanning resumes after it (the replacement itself is not rescanned),
otherwise the character is kept.  Every pattern used here matches at
least one character, so a fuel of the input length always suffices. -/

def pySub (tryM : List Char → Option (List Char × List Char)) :
    Nat → List Char → List Char
  | 0, l => l
  | _ + 1, [] => []
  | fuel + 1, c :: rest =>
    match tryM (c :: rest) with
    | some (repl, after) => repl ++ pySub tryM fuel after
    | none => c :: pySub tryM fuel rest

def reSub (tryM : List Char → Option (List Char × List Char))
    (l : List Char) : List Char :=
  pySub tryM l.length l

/-- `openP(.*?)closeP` without `re.DOTALL` at one position, after the
opener: the lazy group grows until `closeP` follows and cannot cross a
newline.  Returns (group, rest after the closer). -/
def matchInner (closeP : List Char) : List Char → Option (List Char × List Char)
  | [] => none
  | l@(c :: rest) =>
    if closeP.isPrefixOf l then some ([], l.drop closeP.length)
    else if c = '\n' then none
    else (matchInner closeP rest).map (fun p => (c :: p.1, p.2))

def matchBracketed (openP closeP : List Char) (l : List Char) :
    Option (List Char × List Char) :=
  if openP.isPrefixOf l then matchInner closeP (l.drop openP.length) else none

/-- Python `g.split('|')[-1]`: the segment after the last pipe. -/
def lastPipeSeg (g : List Char) : List Char :=
  ((g.reverse.takeWhile (fun c => c ≠ '|'))).reverse

/-- `re.sub(r'\[\[(.*?)\]\]', lambda m: m.group(1).split('|')[-1], ...)`. -/
def linkTry (l : List Char) : Option (List Char × List Char) :=
  (matchBracketed "[[".toList "]]".toList l).map (fun p => (lastPipeSeg p.1, p.2))

/-- `re.sub(r'\{\{ItemLink\|(.*?)\}\}', lambda m: m.group(1).split('|')[-1], ...)`. -/
def itemLinkTry (l : List Char) : Option (List Char × List Char) :=
  (matchBracketed "\x7b\x7bItemLink|".toList "\x7d\x7d".toList l).map (fun p => (lastPipeSeg p.1, p.2))

/-- `re.sub(r'\{\{.*?\}\}', '', ...)`. -/
def braceTry (l : List Char) : Option (List Char × List Char) :=
  (matchBracketed "\x7b\x7b".toList "\x7d\x7d".toList l).map (fun p => (([] : List Char), p.2))

/-- `re.sub(r'\[.*?\]', '', ...)`. -/
def sqTry (l : List Char) : Option (List Char × List Char) :=
  (matchBracketed "[".toList "]".toList l).map (fun p => (([] : List Char), p.2))

/-- `re.sub(r'\|', '', ...)`. -/
def pipeTry : List Char → Option (List Char × List Char)
  | '|' :: rest => some ([], rest)
  | _ => none

/-- `re.sub(r'<[^>]+>', '', ...)`: `<`, at least one non-`>` character
(the greedy `[^>]+` run is necessarily bounded by the first `>`), `>`. -/
def tagTry : List Char → Option (List Char × List Char)
  | '<' :: rest =>
    let inner := rest.takeWhile (fun c => c ≠ '>')
    let after := rest.drop inner.length
    if inner.isEmpty || after.isEmpty then none else some ([], after.tail)
  | _ => none

/-- `s.replace(pat, repl)` for a non-empty literal `pat`. -/
def litTry (pat repl : List Char) (l : List Char) : Option (List Char × List Char) :=
  if pat.isPrefixOf l then some (repl, l.drop pat.length) else none

/-- The fixed cleanup sequence applied to the raw notes text (identical
in the creature branch, lines 498-504, and the NPC branch, lines
564-571): link replacement, ItemLink replacement, macro stripping,
bracket stripping, pipe stripping, tag stripping, then
`.replace("{{PAGENAME}}", name).replace("'''", "")`. -/
def cleanNotes (notes name : String) : String :=
  let s1 := reSub linkTry notes.toList
  let s2 := reSub itemLinkTry s1
  let s3 := reSub braceTry s2
  let s4 := reSub sqTry s3
  let s5 := reSub pipeTry s4
  let s6 := reSub tagTry s5
  strOf (reSub (litTry "'''".toList []) (reSub (litTry "\x7b\x7bPAGENAME\x7d\x7d".toList name.toList) s6))

/-! ### The two extraction schemas -/

/-- Raw pattern search for one creature-schema field (lines 483-496):
`name`/`id`/`hp`/`armor`/`basexp`/`temperament`/`crgroup` use the
`\| label\s*=\s*(.*?)\n` shape, `notes` its own section pattern. -/
def creatureRawMatch (key : String) (c : List Char) : Option (List Char) :=
  match key with
  | "name" => creatureSearch "name".toList c
  | "id" => creatureSearch "id".toList c
  | "health" => creatureSearch "hp".toList c
  | "armor" => creatureSearch "armor".toList c
  | "killed_xp" => creatureSearch "basexp".toList c
  | "temperament" => creatureSearch "temperament".toList c
  | "race" => creatureSearch "crgroup".toList c
  | "notes" => creatureNotesSearch c
  | _ => none

/-- The creature-schema per-field value: the stripped first match, else
the field's default (`'0'` for hp/armor/basexp, `'N/A'` otherwise). -/
def creatureFieldValue (content : String) (key : String) : String :=
  match creatureRawMatch key content.toList with
  | some g => pyStrip (strOf g)
  | none => if key = "health" || key = "armor" || key = "killed_xp" then "0" else "N/A"

/-- The NPC-schema `fields` dict of labeled-value patterns
(lines 536-556): each is the literal `\| Label = (.*?)\n`. -/
def npcFieldLits : List (String × String) :=
  [("name", "| name = "), ("id", "| id = "), ("class", "| class = "),
   ("health", "| Health = "), ("strength", "| Strength = "),
   ("agility", "| Agility = "), ("vitality", "| Vitality = "),
   ("grit", "| Grit = "), ("bonus_vitality", "| BonusVit = "),
   ("armor", "| NPCArmor = "), ("damage_reduction", "| NPCDRArmor = "),
   ("xp", "| NPCKillXP = "), ("temperament", "| NPCTemperament = "),
   ("gender", "| gender = "), ("thrallable", "| thrallable = "),
   ("race", "| race = "), ("faction", "| fac = "),
   ("level_rate", "| levelCurve = ")]

def npcRawMatch (key : String) (c : List Char) : Option (List Char) :=
  if key = "notes" then npcNotesSearch c
  else
    match (npcFieldLits.find? (fun p => p.1 = key)).map (fun p => p.2) with
    | some lit => npcSearch lit.toList c
    | none => none

/-- The NPC-schema per-field value (lines 557-561): the stripped first
match, else `'N/A' if key not in ['health', 'xp'] else '0'`. -/
def npcFieldValue (content : String) (key : String) : String :=
  match npcRawMatch key content.toList with
  | some g => pyStrip (strOf g)
  | none => if key = "health" || key = "xp" then "0" else "N/A"

/-- The creature-branch output list as built at lines 508-529, AFTER
the pet override of class/description (lines 505-507) but BEFORE the
name fallback (lines 530-532).  The loop at lines 491-493 sets every
profession-only field to `'N/A'`; those appear as literal `N/A` lines. -/
def creatureOutput (content file_name : String) : List String :=
  let name := creatureFieldValue content "name"
  let isPet := strContains (pyLower file_name) "(pet)"
  ["Name = " ++ name,
   "ID = " ++ creatureFieldValue content "id",
   "Class = " ++ (if isPet then "pet" else "animal"),
   "Health = " ++ creatureFieldValue content "health",
   "Strength = N/A", "Agility = N/A", "Vitality = N/A", "Grit = N/A",
   "Bonus Vitality = N/A", "Level Rate = N/A",
   "Armor = " ++ creatureFieldValue content "armor",
   "Incoming Damage Reduction = N/A",
   "Killed XP = " ++ creatureFieldValue content "killed_xp",
   "Temperament = " ++ creatureFieldValue content "temperament",
   "Gender = N/A", "Thrallable = N/A",
   "Race = " ++ creatureFieldValue content "race",
   "Faction = N/A",
   "Description = " ++
     (if isPet then name ++ " is a loyal pet companion."
      else name ++ " is a creature."),
   "Notes = " ++ cleanNotes (creatureFieldValue content "notes") name]

/-- Creature branch of `process_file` (lines 480-533): the output list,
with the name line overridden to the id when the name is the sentinel.
Returns (output lines, final name). -/
def processCreature (content file_name : String) : List String × String :=
  let name := creatureFieldValue content "name"
  let id := creatureFieldValue content "id"
  let output := creatureOutput content file_name
  if name = "N/A" then (output.set 0 ("Name = " ++ id), id) else (output, name)

/-- The NPC-branch notes value: the raw extraction, normalized to
`"N/A"` when it is the known no-particular-data placeholder (line
562-563), then passed through the cleanup pipeline. -/
def npcNotesValue (content : String) : String :=
  let notesRaw := npcFieldValue content "notes"
  let notes0 :=
    if strContains notesRaw "Any particular data" || strStartsWith notesRaw "<!--" then "N/A"
    else notesRaw
  cleanNotes notes0 (npcFieldValue content "name")

/-- The NPC-branch output list as built at lines 572-593, BEFORE the
in-place class and name overrides of lines 594-602. -/
def npcOutput (content : String) : List String :=
  let name := npcFieldValue content "name"
  let class0 := npcFieldValue content "class"
  let strength := npcFieldValue content "strength"
  let agility := npcFieldValue content "agility"
  let vitality := npcFieldValue content "vitality"
  let faction := npcFieldValue content "faction"
  ["Name = " ++ name,
   "ID = " ++ npcFieldValue content "id",
   "Class = " ++ class0,
   "Health = " ++ npcFieldValue content "health",
   "Strength = " ++ (if strength = "" then "0" else strength),
   "Agility = " ++ (if agility = "" then "0" else agility),
   "Vitality = " ++ (if vitality = "" then "0" else vitality),
   "Grit = " ++ npcFieldValue content "grit",
   "Bonus Vitality = " ++ npcFieldValue content "bonus_vitality",
   "Level Rate = " ++ npcFieldValue content "level_rate",
   "Armor = " ++ npcFieldValue content "armor",
   "Incoming Damage Reduction = " ++ npcFieldValue content "damage_reduction",
   "Killed XP = " ++ npcFieldValue content "xp",
   "Temperament = " ++ npcFieldValue content "temperament",
   "Gender = " ++ npcFieldValue content "gender",
   "Thrallable = " ++ npcFieldValue content "thrallable",
   "Race = " ++ npcFieldValue content "race",
   "Faction = " ++ faction,
   "Description = " ++
     (if faction ≠ "N/A" then
       name ++ " is a named, Tier 4 " ++ class0 ++ " NPC of the " ++ faction ++ " faction."
     else "No faction assigned."),
   "Notes = " ++ npcNotesValue content]

/-- NPC branch of `process_file` (lines 534-603): the output list, then
the in-place overrides of the class line (`'N/A'` → `npc`, pet filename
hint → `pet`) and of the name line (`'N/A'` → the id).  Returns
(output lines, final name). -/
def processNpc (content file_name : String) : List String × String :=
  let name := npcFieldValue content "name"
  let id := npcFieldValue content "id"
  let class0 := npcFieldValue content "class"
  let output := npcOutput content
  let output1 := if class0 = "N/A" then output.set 2 "Class = npc" else output
  let output2 :=
    if strContains (pyLower file_name) "(pet)" then output1.set 2 "Class = pet" else output1
  let name2 := if name = "N/A" then id else name
  let output3 := if name = "N/A" then output2.set 0 ("Name = " ++ id) else output2
  (output3, name2)

/-- `FileProcessorThread.process_file` (line 479-603): the creature
schema is selected exactly when the markup contains the
`{{Creature infobox` marker. -/
def process_file (content file_name : String) : String × String :=
  if strContains content "\x7b\x7bCreature infobox" then
    let r := processCreature content file_name
    (String.intercalate "\n" r.1, r.2)
  else
    let r := processNpc content file_name
    (String.intercalate "\n" r.1, r.2)

/-- The destination partition of a record: the table name computed from
the case-folded class. -/
def destTable (data : Dict) : String := tableNameOf (pyLower (dictGetD data "class" ""))

/-- Concrete data for the upsert scenarios: first ingestion of "Conan". -/
def d0 : Dict := [("name", "Conan"), ("id", "1"), ("class", "fighter"), ("health", "500")]

/-- Re-ingestion of "Conan" with every non-key field changed, including
a changed (but still case-insensitively equal) class value. -/
def d1 : Dict := [("name", "Conan"), ("id", "2"), ("class", "Fighter"), ("health", "999")]

/-- A store whose Fighter partition already holds the row of `d0`. -/
def st0 : Store := fun t => if t = "Fighter" then [Row.ofData d0] else []

/-- The specification of the progress-event trace, from the spec's
words amended by the counterexample: one value is emitted after every
attempted (non-checkpointed) title — `(done+1)*100/total` after a
completed title, `done*100/total` after a failed one, where `done`
starts at the checkpoint's size — and NOTHING is emitted after a
skipped (already-checkpointed) title.  Compared against the run model
in the C5 theorem. -/
def emitsSpec (fetch : String → Option String) (total : Nat) :
    List String → List String → Nat → List Nat
  | [], _, _ => []
  | t :: ts, scr, done =>
    if t ∈ scr then emitsSpec fetch total ts scr done
    else if contentTruthy (fetch t) then
      ((done + 1) * 100 / total) :: emitsSpec fetch total ts (insertSet scr t) (done + 1)
    else (done * 100 / total) :: emitsSpec fetch total ts scr done

/-! ## Helper lemmas -/

lemma cleanNotes_na (name : String) : cleanNotes "N/A" name = "N/A" := rfl

lemma mem_insertSet (s : List String) (x y : String) :
    y ∈ insertSet s x ↔ y ∈ s ∨ y = x := by
  unfold insertSet
  split
  · next h =>
    constructor
    · exact fun hy => Or.inl hy
    · intro hy
      cases hy with
      | inl hy => exact hy
      | inr hy => exact hy ▸ h
  · simp

lemma insertSet_nodup (s : List String) (x : String) (h : s.Nodup) :
    (insertSet s x).Nodup := by
  unfold insertSet
  split
  · exact h
  · next hx => simp [List.nodup_append, h, hx]

lemma mem_addTitles (ts : List String) (s : List String) (y : String) :
    y ∈ addTitles s ts ↔ y ∈ s ∨ y ∈ ts := by
  induction ts generalizing s with
  | nil => simp [addTitles]
  | cons t ts ih =>
    show y ∈ addTitles (insertSet s t) ts ↔ _
    rw [ih, mem_insertSet]
    simp only [List.mem_cons]
    tauto

lemma addTitles_nodup (ts : List String) (s : List String) (h : s.Nodup) :
    (addTitles s ts).Nodup := by
  induction ts generalizing s with
  | nil => exact h
  | cons t ts ih => exact ih (insertSet s t) (insertSet_nodup s t h)

lemma mem_pageFold (pages : List (List String)) (s : List String) (y : String) :
    y ∈ pages.foldl addTitles s ↔ y ∈ s ∨ ∃ page ∈ pages, y ∈ page := by
  induction pages generalizing s with
  | nil => simp
  | cons p ps ih =>
    rw [List.foldl_cons, ih, mem_addTitles]
    simp only [List.mem_cons]
    constructor
    · rintro ((hy | hy) | ⟨page, hp, hy⟩)
      · exact Or.inl hy
      · exact Or.inr ⟨p, Or.inl rfl, hy⟩
      · exact Or.inr ⟨page, Or.inr hp, hy⟩
    · rintro (hy | ⟨page, hp | hp, hy⟩)
      · exact Or.inl (Or.inl hy)
      · exact Or.inl (Or.inr (hp ▸ hy))
      · exact Or.inr ⟨page, hp, hy⟩

lemma pageFold_nodup (pages : List (List String)) (s : List String) (h : s.Nodup) :
    (pages.foldl addTitles s).Nodup := by
  induction pages generalizing s with
  | nil => exact h
  | cons p ps ih => exact ih (addTitles s p) (addTitles_nodup p s h)

lemma mem_catFold (cs : List (List (List String))) (s : List String) (y : String) :
    y ∈ cs.foldl (fun s pages => pages.foldl addTitles s) s ↔
      y ∈ s ∨ ∃ cat ∈ cs, ∃ page ∈ cat, y ∈ page := by
  induction cs generalizing s with
  | nil => simp
  | cons c cs ih =>
    rw [List.foldl_cons, ih, mem_pageFold]
    simp only [List.mem_cons]
    constructor
    · rintro ((hy | ⟨page, hp, hy⟩) | ⟨cat, hc, hrest⟩)
      · exact Or.inl hy
      · exact Or.inr ⟨c, Or.inl rfl, page, hp, hy⟩
      · exact Or.inr ⟨cat, Or.inr hc, hrest⟩
    · rintro (hy | ⟨cat, hc | hc, hrest⟩)
      · exact Or.inl (Or.inl hy)
      · exact Or.inl (Or.inr (hc ▸ hrest))
      · exact Or.inr ⟨cat, hc, hrest⟩

lemma catFold_nodup (cs : List (List (List String))) (s : List String) (h : s.Nodup) :
    (cs.foldl (fun s pages => pages.foldl addTitles s) s).Nodup := by
  induction cs generalizing s with
  | nil => exact h
  | cons c cs ih => exact ih _ (pageFold_nodup c s h)

/-! ## Claim theorems -/

/-- C8: For every sequence of category listing responses (any page
contents, any overlap between categories), the catalog returned by
`fetch_all_pages` contains no duplicate titles — it is the set union of
the titles of all pages of all categories. -/
theorem fetch_all_pages_no_duplicates (categories : List (List (List String))) :
    (fetch_all_pages categories).Nodup ∧
    ∀ x, x ∈ fetch_all_pages categories ↔ ∃ cat ∈ categories, ∃ page ∈ cat, x ∈ page := by
  constructor
  · exact catFold_nodup categories [] (by simp)
  · intro x
    rw [fetch_all_pages, mem_catFold]
    simp

/-- C9: The notes cleanup pipeline (link replacement, macro
replacement, macro/bracket stripping, pipe stripping, tag stripping,
placeholder substitution and bold-delimiter removal) applied to the
already-clean input `"N/A"` returns `"N/A"` unchanged, whatever the
extracted name substituted for the placeholder is. -/
theorem cleanup_idempotent_on_na (name : String) : cleanNotes "N/A" name = "N/A" :=
  cleanNotes_na name

/-- C10: `parse_thrall_file` ignores every line without `=`; a line
containing `=` is split at the first `=`, the trimmed lower-cased key
bound to the trimmed value with `"N/A"` substituted for an empty value —
so `"Name = "` yields `name ↦ "N/A"`, which the required-field
validation of `insert_or_update_data` then rejects. -/
theorem parse_splits_and_defaults :
    (∀ (data : Dict) (line : String), strContains line "=" = false →
      parseStep data line = data) ∧
    (∀ data : Dict, parseStep data "Name = " = dictSet data "name" "N/A") ∧
    dictGet (parse_thrall_file ["Name = ", "ID = X7", "Class = fighter"]) "name" = some "N/A" ∧
    insert_or_update_data (parse_thrall_file ["Name = ", "ID = X7", "Class = fighter"]) stEmpty =
      ("INVALID DATA: Missing or invalid NAME", stEmpty) := by
  refine ⟨?_, fun data => rfl, rfl, rfl⟩
  intro data line h
  simp [parseStep, h]

/-- Witness for C10 at a concrete no-`=` line. -/
theorem parse_splits_and_defaults_witness :
    strContains "a plain line" "=" = false ∧ parseStep [] "a plain line" = [] :=
  ⟨by decide, parse_splits_and_defaults.1 [] "a plain line" (by decide)⟩


/-- C4: `insert_or_update_data` fails with the MissingRequiredField-style
message when any of name/id/class is absent, empty or the sentinel
`"N/A"` (the first conjunct characterises `fieldInvalid` as exactly
that); with required fields present, it fails with the UnknownClass-style
message when the case-folded class is outside the 17-class whitelist;
in both failure cases the returned store is the input store unchanged. -/
theorem insert_or_update_rejections (data : Dict) (st : Store) :
    (∀ f, fieldInvalid data f = true ↔
      (dictGet data f = none ∨ dictGet data f = some "" ∨ dictGet data f = some "N/A")) ∧
    ((∃ f ∈ requiredFields, fieldInvalid data f = true) →
      (insert_or_update_data data st).2 = st ∧
      ∃ f ∈ requiredFields, insert_or_update_data data st =
        ("INVALID DATA: Missing or invalid " ++ pyUpper f, st)) ∧
    ((∀ f ∈ requiredFields, fieldInvalid data f = false) →
      pyLower (dictGetD data "class" "") ∉ classWhitelist →
      insert_or_update_data data st =
        ("INVALID CLASS: " ++ pyUpper (pyLower (dictGetD data "class" "")), st)) := by
  refine ⟨?_, ?_, ?_⟩
  · intro f
    unfold fieldInvalid
    cases h : dictGet data f with
    | none => simp
    | some v =>
      simp only [Bool.or_eq_true, decide_eq_true_eq, Option.some.injEq]
      constructor
      · rintro (rfl | rfl)
        · exact Or.inr (Or.inl rfl)
        · exact Or.inr (Or.inr rfl)
      · rintro (hv | rfl | rfl)
        · exact absurd hv (by simp)
        · exact Or.inl rfl
        · exact Or.inr rfl
  · intro hex
    cases hfind : requiredFields.find? (fun f => fieldInvalid data f) with
    | none =>
      obtain ⟨f, hf, hinv⟩ := hex
      have := List.find?_eq_none.mp hfind f hf
      simp [hinv] at this
    | some f =>
      have hmem : f ∈ requiredFields := List.mem_of_find?_eq_some hfind
      have : insert_or_update_data data st =
          ("INVALID DATA: Missing or invalid " ++ pyUpper f, st) := by
        unfold insert_or_update_data
        rw [hfind]
      exact ⟨by rw [this], f, hmem, this⟩
  · intro hall hcls
    have hfind : requiredFields.find? (fun f => fieldInvalid data f) = none :=
      List.find?_eq_none.mpr (fun f hf => by simp [hall f hf])
    unfold insert_or_update_data
    rw [hfind]
    simp [hcls]

/-- Witness for C4: a record missing its name is rejected with the
store untouched, and `class="wizard"` is rejected as an unknown class. -/
theorem insert_or_update_rejections_witness :
    ((∃ f ∈ requiredFields, fieldInvalid [(("id" : String), ("X7" : String))] f = true) ∧
      (insert_or_update_data [(("id" : String), ("X7" : String))] stEmpty).2 = stEmpty) ∧
    ((∀ f ∈ requiredFields,
        fieldInvalid [("name", "Conan"), ("id", "X7"), ("class", "wizard")] f = false) ∧
      insert_or_update_data [("name", "Conan"), ("id", "X7"), ("class", "wizard")] stEmpty =
        ("INVALID CLASS: WIZARD", stEmpty)) := by
  refine ⟨⟨⟨"name", by decide, by decide⟩, ?_⟩, ⟨by decide, ?_⟩⟩
  · exact ((insert_or_update_rejections [(("id" : String), ("X7" : String))] stEmpty).2.1
      ⟨"name", by decide, by decide⟩).1
  · have h := (insert_or_update_rejections
      [("name", "Conan"), ("id", "X7"), ("class", "wizard")] stEmpty).2.2
      (by decide) (by decide)
    simpa using h


/-- C1 counterexample: upserting `d1` (class value `"Fighter"`) over the
stored row of `d0` (class value `"fighter"`) leaves the stored class at
the OLD value `"fighter"` — the `ON CONFLICT ... DO UPDATE SET` list
omits `class`, so the claim that every non-key field including class is
overwritten is false; the other non-key fields (id, health) are taken
from the new record, and the partition still holds exactly one row. -/
theorem upsert_class_not_overwritten :
    dictGetD d1 "class" "N/A" = "Fighter" ∧
    ((insert_or_update_data d1 st0).2 "Fighter").map Row.class_ = ["fighter"] ∧
    ((insert_or_update_data d1 st0).2 "Fighter").map Row.id = ["2"] ∧
    ((insert_or_update_data d1 st0).2 "Fighter").map Row.health = ["999"] ∧
    ((insert_or_update_data d1 st0).2 "Fighter").length = 1 := by decide

/-- C1 (amended): on a name collision in the destination partition, the
upsert maps the colliding row through `updateSet`, which overwrites
every non-key field EXCEPT `class` (absent from the SQL SET list) with
the new record's values while `class` and the key `name` keep the stored
row's values; the partition's row count — and in particular the number
of rows with that name — is unchanged, so no duplicate is created. -/
theorem upsert_overwrites_all_but_class (data : Dict) (st : Store)
    (hreq : requiredFields.find? (fun f => fieldInvalid data f) = none)
    (hwl : pyLower (dictGetD data "class" "") ∈ classWhitelist)
    (hcol : (st (destTable data)).any
      (fun q => q.name == (Row.ofData data).name) = true) :
    ((insert_or_update_data data st).2 (destTable data) =
      (st (destTable data)).map
        (fun q => if q.name == (Row.ofData data).name
          then updateSet q (Row.ofData data) else q)) ∧
    (((insert_or_update_data data st).2 (destTable data)).length =
      (st (destTable data)).length) ∧
    (((insert_or_update_data data st).2 (destTable data)).countP
        (fun q => q.name == (Row.ofData data).name) =
      (st (destTable data)).countP (fun q => q.name == (Row.ofData data).name)) ∧
    (∀ old : Row,
      (updateSet old (Row.ofData data)).class_ = old.class_ ∧
      (updateSet old (Row.ofData data)).name = old.name ∧
      (updateSet old (Row.ofData data)).id = (Row.ofData data).id ∧
      (updateSet old (Row.ofData data)).health = (Row.ofData data).health ∧
      (updateSet old (Row.ofData data)).strength = (Row.ofData data).strength ∧
      (updateSet old (Row.ofData data)).agility = (Row.ofData data).agility ∧
      (updateSet old (Row.ofData data)).vitality = (Row.ofData data).vitality ∧
      (updateSet old (Row.ofData data)).grit = (Row.ofData data).grit ∧
      (updateSet old (Row.ofData data)).bonus_vitality = (Row.ofData data).bonus_vitality ∧
      (updateSet old (Row.ofData data)).level_rate = (Row.ofData data).level_rate ∧
      (updateSet old (Row.ofData data)).armor = (Row.ofData data).armor ∧
      (updateSet old (Row.ofData data)).incoming_damage_reduction =
        (Row.ofData data).incoming_damage_reduction ∧
      (updateSet old (Row.ofData data)).killed_xp = (Row.ofData data).killed_xp ∧
      (updateSet old (Row.ofData data)).temperament = (Row.ofData data).temperament ∧
      (updateSet old (Row.ofData data)).gender = (Row.ofData data).gender ∧
      (updateSet old (Row.ofData data)).thrallable = (Row.ofData data).thrallable ∧
      (updateSet old (Row.ofData data)).race = (Row.ofData data).race ∧
      (updateSet old (Row.ofData data)).faction = (Row.ofData data).faction ∧
      (updateSet old (Row.ofData data)).description = (Row.ofData data).description ∧
      (updateSet old (Row.ofData data)).notes = (Row.ofData data).notes) := by
  have hstep : (insert_or_update_data data st).2 =
      storeUpsert st (destTable data) (Row.ofData data) := by
    unfold insert_or_update_data
    rw [hreq]
    simp [hwl, destTable]
  have htab : (insert_or_update_data data st).2 (destTable data) =
      upsertRow (Row.ofData data) (st (destTable data)) := by
    rw [hstep]
    unfold storeUpsert
    simp
  have hmap : upsertRow (Row.ofData data) (st (destTable data)) =
      (st (destTable data)).map
        (fun q => if q.name == (Row.ofData data).name
          then updateSet q (Row.ofData data) else q) := by
    unfold upsertRow
    rw [if_pos hcol]
  refine ⟨by rw [htab, hmap], by rw [htab, hmap, List.length_map], ?_, ?_⟩
  · rw [htab, hmap, List.countP_map]
    apply List.countP_congr
    intro q _
    by_cases hq : q.name == (Row.ofData data).name
    · simp [hq, Function.comp, updateSet]
    · simp only [Function.comp]
      rw [if_neg (by simpa using hq)]
  · intro old
    refine ⟨rfl, rfl, rfl, rfl, rfl, rfl, rfl, rfl, rfl, rfl,
      rfl, rfl, rfl, rfl, rfl, rfl, rfl, rfl, rfl, rfl⟩

/-- Witness for C1 (amended) at the concrete `d1`/`st0` collision. -/
theorem upsert_overwrites_all_but_class_witness :
    (requiredFields.find? (fun f => fieldInvalid d1 f) = none ∧
      pyLower (dictGetD d1 "class" "") ∈ classWhitelist ∧
      (st0 (destTable d1)).any (fun q => q.name == (Row.ofData d1).name) = true) ∧
    (insert_or_update_data d1 st0).2 (destTable d1) =
      [updateSet (Row.ofData d0) (Row.ofData d1)] := by
  refine ⟨⟨by decide, by decide, by decide⟩, ?_⟩
  have h := (upsert_overwrites_all_but_class d1 st0 (by decide) (by decide) (by decide)).1
  rw [h]
  decide

/-! ## Retry / run-loop lemmas -/

lemma retryGo_success (o : Nat → ReqResult) (b a n : Nat) (c : Option String)
    (h : o a = .response 200 c) : retryGo o b a (n + 1) = (some c, []) := by
  simp [retryGo, h]

lemma retryGo_fail (o : Nat → ReqResult) (b a n : Nat)
    (h : (o a).isSuccess = false) :
    retryGo o b a (n + 1) =
      if n = 0 then (none, [])
      else ((retryGo o b (a + 1) n).1, b ^ a :: (retryGo o b (a + 1) n).2) := by
  cases ho : o a with
  | response s c =>
    have hs : s ≠ 200 := by
      intro hs
      subst hs
      rw [ho] at h
      simp [ReqResult.isSuccess] at h
    simp [retryGo, ho, hs]
  | exn m => simp [retryGo, ho]

lemma retryGo_congr (o o' : Nat → ReqResult) (b : Nat) :
    ∀ (n a : Nat), (∀ i, a ≤ i → i < a + n → o i = o' i) →
      retryGo o b a n = retryGo o' b a n := by
  intro n
  induction n with
  | zero => intro a _; rfl
  | succ n ih =>
    intro a h
    have ha : o a = o' a := h a (Nat.le_refl a) (by omega)
    simp only [retryGo]
    rw [ha, ih (a + 1) (fun i h1 h2 => h i (by omega) (by omega))]

lemma requests_mono (fetch : String → Option String) (total : Nat) :
    ∀ (ts : List String) (st : ScrapeState) (x : String),
      x ∈ st.requests → x ∈ (scrapeRun fetch total st ts).requests := by
  intro ts
  induction ts with
  | nil => intro st x hx; exact hx
  | cons t ts ih =>
    intro st x hx
    show x ∈ (scrapeRun fetch total (scrapeStep fetch total st t) ts).requests
    apply ih
    unfold scrapeStep
    split
    · exact hx
    · cases hf : fetch t <;> dsimp only <;> (try split) <;> simp [hx]

lemma step_scraped_not_mem (fetch : String → Option String) (total : Nat)
    (st : ScrapeState) (t u : String) (h : u ∉ st.scraped) (hne : u ≠ t) :
    u ∉ (scrapeStep fetch total st t).scraped := by
  unfold scrapeStep
  split
  · exact h
  · cases hf : fetch t <;> dsimp only
    · simpa using h
    · split
      · simpa using h
      · simp only [mem_insertSet]
        push_neg
        exact ⟨h, hne⟩

lemma step_scraped_mem (fetch : String → Option String) (total : Nat)
    (st : ScrapeState) (t u : String) (h : u ∈ st.scraped) :
    u ∈ (scrapeStep fetch total st t).scraped := by
  unfold scrapeStep
  split
  · exact h
  · cases hf : fetch t <;> dsimp only
    · simpa using h
    · split
      · simpa using h
      · simp only [mem_insertSet]
        exact Or.inl h

lemma run_requests_of_mem (fetch : String → Option String) (total : Nat) :
    ∀ (ts : List String) (st : ScrapeState) (t : String),
      t ∈ ts → t ∉ st.scraped → t ∈ (scrapeRun fetch total st ts).requests := by
  intro ts
  induction ts with
  | nil => intro st t ht; cases ht
  | cons u ts ih =>
    intro st t ht hscr
    by_cases he : t = u
    · subst he
      show t ∈ (scrapeRun fetch total (scrapeStep fetch total st t) ts).requests
      apply requests_mono
      unfold scrapeStep
      rw [if_neg hscr]
      cases hf : fetch t <;> dsimp only <;> (try split) <;> simp
    · rcases List.mem_cons.mp ht with rfl | ht'
      · exact absurd rfl he
      · exact ih (scrapeStep fetch total st u) t ht'
          (step_scraped_not_mem fetch total st u t hscr he)

lemma run_not_requested (fetch : String → Option String) (total : Nat) :
    ∀ (ts : List String) (st : ScrapeState) (x : String),
      x ∈ st.scraped → x ∉ st.requests →
      x ∉ (scrapeRun fetch total st ts).requests := by
  intro ts
  induction ts with
  | nil => intro st x _ hreq; exact hreq
  | cons t ts ih =>
    intro st x hscr hreq
    refine ih (scrapeStep fetch total st t) x
      (step_scraped_mem fetch total st t x hscr) ?_
    unfold scrapeStep
    split
    · exact hreq
    · next hts =>
      have hxt : x ≠ t := fun he => hts (he ▸ hscr)
      cases hf : fetch t <;> dsimp only <;> (try split) <;> simp [hreq, hxt]

lemma run_files_shape (fetch : String → Option String) (total : Nat)
    (P : String → Prop) :
    ∀ (ts : List String) (st : ScrapeState),
      (∀ u, P u → u ∈ st.scraped) →
      (∀ p ∈ st.files, ∃ u, ¬ P u ∧ p.1 = sanitize_filename u) →
      ∀ p ∈ (scrapeRun fetch total st ts).files,
        ∃ u, ¬ P u ∧ p.1 = sanitize_filename u := by
  intro ts
  induction ts with
  | nil => intro st _ hfiles; exact hfiles
  | cons t ts ih =>
    intro st hscr hfiles
    refine ih (scrapeStep fetch total st t)
      (fun u hu => step_scraped_mem fetch total st t u (hscr u hu)) ?_
    unfold scrapeStep
    split
    · exact hfiles
    · next hts =>
      cases hf : fetch t <;> dsimp only
      · simpa using hfiles
      · split
        · simpa using hfiles
        · intro p hp
          dsimp only at hp
          simp only [List.mem_append, List.mem_singleton] at hp
          rcases hp with hp | hp
          · exact hfiles p hp
          · exact ⟨t, fun hPt => hts (hscr t hPt), by rw [hp]⟩


lemma emitsSpec_cons (fetch : String → Option String) (total : Nat)
    (t : String) (ts scr : List String) (done : Nat) :
    emitsSpec fetch total (t :: ts) scr done =
      if t ∈ scr then emitsSpec fetch total ts scr done
      else if contentTruthy (fetch t) then
        ((done + 1) * 100 / total) :: emitsSpec fetch total ts (insertSet scr t) (done + 1)
      else (done * 100 / total) :: emitsSpec fetch total ts scr done := rfl

lemma run_emits (fetch : String → Option String) (total : Nat) :
    ∀ (ts : List String) (st : ScrapeState),
      (scrapeRun fetch total st ts).progressEmits =
        st.progressEmits ++ emitsSpec fetch total ts st.scraped st.pages_scraped := by
  intro ts
  induction ts with
  | nil => intro st; simp [scrapeRun, emitsSpec]
  | cons t ts ih =>
    intro st
    show (scrapeRun fetch total (scrapeStep fetch total st t) ts).progressEmits = _
    rw [ih, emitsSpec_cons]
    unfold scrapeStep
    split
    · rfl
    · cases hf : fetch t <;> dsimp only
      · simp [contentTruthy]
      · next content =>
        by_cases hc : content = "" <;> simp [hc, contentTruthy]

/-- C3: `retry_request` makes at most 3 attempts (its outcome depends
only on the first three attempt results), returns on the first
status-200 response with no sleep afterwards, sleeps
`backoff_factor ^ attemptIndex` seconds (1s then 2s) only between
attempts, treats both non-200 responses and transport exceptions as
retryable, raises after 3 failed attempts with no sleep after the last,
whereupon the caller `fetch_page_content` swallows the exception into
`None` — and a failed title does not stop the run: any later
non-checkpointed title is still requested. -/
theorem retry_three_attempts_backoff :
    (∀ (o : Nat → ReqResult) (c : Option String),
      o 0 = .response 200 c → retry_request o = (some c, [])) ∧
    (∀ (o : Nat → ReqResult) (c : Option String),
      (o 0).isSuccess = false → o 1 = .response 200 c →
      retry_request o = (some c, [1])) ∧
    (∀ (o : Nat → ReqResult) (c : Option String),
      (o 0).isSuccess = false → (o 1).isSuccess = false → o 2 = .response 200 c →
      retry_request o = (some c, [1, 2])) ∧
    (∀ o : Nat → ReqResult, (∀ i, i < 3 → (o i).isSuccess = false) →
      retry_request o = (none, [1, 2]) ∧ fetch_page_content o = none) ∧
    (∀ o o' : Nat → ReqResult, (∀ i, i < 3 → o i = o' i) →
      retry_request o = retry_request o') ∧
    (∀ (s : Nat) (c : Option String) (m : String), s ≠ 200 →
      (ReqResult.response s c).isSuccess = false ∧ (ReqResult.exn m).isSuccess = false) ∧
    (∀ (fetch : String → Option String) (total : Nat) (st : ScrapeState)
        (t0 t : String) (ts : List String),
      fetch t0 = none → t ∈ ts → t ∉ st.scraped →
      t ∈ (scrapeRun fetch total st (t0 :: ts)).requests) := by
  refine ⟨?_, ?_, ?_, ?_, ?_, ?_, ?_⟩
  · intro o c h
    exact retryGo_success o 2 0 2 c h
  · intro o c h0 h1
    show retryGo o 2 0 3 = _
    rw [retryGo_fail o 2 0 2 h0, if_neg (by omega), retryGo_success o 2 1 1 c h1]
    rfl
  · intro o c h0 h1 h2
    show retryGo o 2 0 3 = _
    rw [retryGo_fail o 2 0 2 h0, if_neg (by omega),
      retryGo_fail o 2 1 1 h1, if_neg (by omega), retryGo_success o 2 2 0 c h2]
    rfl
  · intro o h
    have hr : retry_request o = (none, [1, 2]) := by
      show retryGo o 2 0 3 = _
      rw [retryGo_fail o 2 0 2 (h 0 (by omega)), if_neg (by omega),
        retryGo_fail o 2 1 1 (h 1 (by omega)), if_neg (by omega),
        retryGo_fail o 2 2 0 (h 2 (by omega)), if_pos rfl]
      rfl
    exact ⟨hr, by unfold fetch_page_content; rw [hr]⟩
  · intro o o' h
    exact retryGo_congr o o' 2 3 0 (fun i _ h2 => h i (by omega))
  · intro s c m hs
    refine ⟨?_, rfl⟩
    unfold ReqResult.isSuccess
    split
    · next heq =>
      cases heq
      exact absurd rfl hs
    · rfl
  · intro fetch total st t0 t ts _ ht hscr
    exact run_requests_of_mem fetch total (t0 :: ts) st t (List.mem_cons_of_mem t0 ht) hscr

/-- Witness for C3: an outcome stream failing with HTTP 500, then an
exception, then succeeding; and a run where the first title's fetch
fails but the second is still requested. -/
theorem retry_three_attempts_backoff_witness :
    (((fun i => if i = 0 then ReqResult.response 500 none
        else if i = 1 then ReqResult.exn "boom"
        else ReqResult.response 200 (some "payload")) : Nat → ReqResult) 0).isSuccess = false ∧
    retry_request (fun i => if i = 0 then ReqResult.response 500 none
        else if i = 1 then ReqResult.exn "boom"
        else ReqResult.response 200 (some "payload")) = (some (some "payload"), [1, 2]) ∧
    ("B" : String) ∈ (scrapeRun (fun t => if t = "A" then none else some "X") 2
      { scraped := [], pages_scraped := 0, requests := [], files := [],
        progressEmits := [] } ["A", "B"]).requests := by
  refine ⟨by decide, ?_, ?_⟩
  · exact retry_three_attempts_backoff.2.2.1
      (fun i => if i = 0 then ReqResult.response 500 none
        else if i = 1 then ReqResult.exn "boom"
        else ReqResult.response 200 (some "payload")) (some "payload")
      (by decide) (by decide) (by decide)
  · exact retry_three_attempts_backoff.2.2.2.2.2.2
      (fun t => if t = "A" then none else some "X") 2 _ "A" "B" ["B"]
      (by decide) (by decide) (by decide)

/-- C5 counterexample: a catalog of one title that is already in the
checkpoint.  The claim requires a progress value
`int(((1 + 0) / 1) * 100) = 100` to be emitted after the skipped title,
but the loop's `continue` bypasses the emission: nothing is emitted. -/
theorem progress_skipped_title_emits_nothing :
    ("A" : String) ∈ (["A"] : List String) ∧
    (runScrape (fun _ => none) ["A"] ["A"]).progressEmits = ([] : List Nat) := by
  exact ⟨by decide, rfl⟩

/-- C5 (amended): the progress values emitted by the fetch run are
exactly one per attempted title — `(checkpointed-at-start + newly
completed) * 100 / N` truncated, recomputed after every completed title
and also emitted (unchanged) after every failed title — and a skipped
(already-checkpointed) title emits nothing, as expressed by
`emitsSpec`. -/
theorem progress_trace_matches_spec (fetch : String → Option String)
    (pages checkpoint : List String) :
    (runScrape fetch pages checkpoint).progressEmits =
      emitsSpec fetch pages.length pages checkpoint.dedup checkpoint.dedup.length := by
  unfold runScrape
  rw [run_emits]
  rfl

/-- C7: a title in the checkpoint loaded at worker start is never
requested during the run, and every written file belongs to some
non-checkpointed title. -/
theorem checkpointed_title_skipped (fetch : String → Option String)
    (pages checkpoint : List String) (title : String)
    (h : title ∈ checkpoint) :
    title ∉ (runScrape fetch pages checkpoint).requests ∧
    ∀ p ∈ (runScrape fetch pages checkpoint).files,
      ∃ u, u ∉ checkpoint ∧ p.1 = sanitize_filename u := by
  constructor
  · refine run_not_requested fetch pages.length pages _ title ?_ ?_
    · exact List.mem_dedup.mpr h
    · simp
  · refine run_files_shape fetch pages.length (fun u => u ∈ checkpoint) pages _
      (fun u hu => List.mem_dedup.mpr hu) ?_
    intro p hp
    simp at hp

/-- Witness for C7 at a concrete two-title run with title "A"
checkpointed. -/
theorem checkpointed_title_skipped_witness :
    ("A" : String) ∈ (["A"] : List String) ∧
    ("A" : String) ∉ (runScrape (fun _ => some "X") ["A", "B"] ["A"]).requests :=
  ⟨by decide,
    (checkpointed_title_skipped (fun _ => some "X") ["A", "B"] ["A"] "A" (by decide)).1⟩

/-! ## Extractor lemmas -/

lemma npcFieldValue_default (content : String) (key : String)
    (h : npcRawMatch key content.toList = none) :
    npcFieldValue content key = if key = "health" || key = "xp" then "0" else "N/A" := by
  unfold npcFieldValue
  rw [h]

lemma creatureFieldValue_default (content : String) (key : String)
    (h : creatureRawMatch key content.toList = none) :
    creatureFieldValue content key =
      if key = "health" || key = "armor" || key = "killed_xp" then "0" else "N/A" := by
  unfold creatureFieldValue
  rw [h]

lemma processNpc_get_stable (content fname : String) (j : Nat)
    (h0 : j ≠ 0) (h2 : j ≠ 2) :
    (processNpc content fname).1[j]? = (npcOutput content)[j]? := by
  simp only [processNpc]
  split <;> split <;> split <;>
    simp [List.getElem?_set_ne (Ne.symm h0), List.getElem?_set_ne (Ne.symm h2)]

lemma processCreature_get_stable (content fname : String) (j : Nat) (h0 : j ≠ 0) :
    (processCreature content fname).1[j]? = (creatureOutput content fname)[j]? := by
  simp only [processCreature]
  split <;> simp [List.getElem?_set_ne (Ne.symm h0)]

/-- C6: the creature schema is selected exactly when the markup contains
the `{{Creature infobox` marker; under it the class line is
`Class = animal`, overridden to `Class = pet` on a pet filename hint;
under the NPC schema, when the class pattern finds no value the class
line becomes `Class = npc`, likewise overridden to `Class = pet` on a
pet filename hint. -/
theorem schema_classification (content fname : String) :
    (process_file content fname =
      if strContains content "\x7b\x7bCreature infobox" then
        (String.intercalate "\n" (processCreature content fname).1,
          (processCreature content fname).2)
      else
        (String.intercalate "\n" (processNpc content fname).1,
          (processNpc content fname).2)) ∧
    ((processCreature content fname).1[2]? =
      some (if strContains (pyLower fname) "(pet)" then "Class = pet"
        else "Class = animal")) ∧
    (npcRawMatch "class" content.toList = none →
      (processNpc content fname).1[2]? =
        some (if strContains (pyLower fname) "(pet)" then "Class = pet"
          else "Class = npc")) := by
  refine ⟨rfl, ?_, ?_⟩
  · simp only [processCreature, creatureOutput]
    split
    · rw [List.getElem?_set_ne (by decide)]
      split <;> rfl
    · split <;> rfl
  · intro h
    have hcls : npcFieldValue content "class" = "N/A" := by
      rw [npcFieldValue_default content "class" h]; rfl
    have hlen : (npcOutput content).length = 20 := rfl
    simp only [processNpc, hcls, eq_self_iff_true, ite_true]
    split <;> split <;>
      (try simp only [List.getElem?_set_ne (by decide : (0 : Nat) ≠ 2), List.set_set]) <;>
      exact List.getElem?_set_eq_of_lt _ (by rw [hlen]; omega)

/-- Witness for C6: empty markup has no class value; with a pet filename
hint the class line becomes `Class = pet`, without it `Class = npc`. -/
theorem schema_classification_witness :
    npcRawMatch "class" "".toList = none ∧
    (processNpc "" "Kappa (pet).txt").1[2]? = some "Class = pet" ∧
    (processNpc "" "Kappa.txt").1[2]? = some "Class = npc" := by
  refine ⟨rfl, ?_, ?_⟩
  · have h := (schema_classification "" "Kappa (pet).txt").2.2 rfl
    simpa using h
  · have h := (schema_classification "" "Kappa.txt").2.2 rfl
    simpa using h

/-- C2 counterexample: on markup where the strength pattern (and every
other pattern) finds no match, the NPC schema emits `Strength = N/A`,
not the claimed numeric default `Strength = 0` — only health and
killed-XP carry the `"0"` default; level rate and armor likewise fall
back to `N/A`. -/
theorem extraction_numeric_default_refuted :
    npcRawMatch "strength" ("" : String).toList = none ∧
    (processNpc "" "f.txt").1[4]? = some "Strength = N/A" ∧
    (processNpc "" "f.txt").1[4]? ≠ some "Strength = 0" ∧
    (processNpc "" "f.txt").1[9]? = some "Level Rate = N/A" ∧
    (processNpc "" "f.txt").1[10]? = some "Armor = N/A" := by
  refine ⟨rfl, ?_, ?_, ?_, ?_⟩ <;> decide

/-- C2 (amended): when a field's labeled-value pattern finds no match,
the emitted line carries the field's default — which is `"0"` ONLY for
health and killed XP in the NPC schema (health, armor and killed XP in
the creature schema) and `"N/A"` for every other field.  Each conjunct
assumes only its own field's pattern failing, over arbitrary
surrounding markup: the absence of one field never affects the
extraction of the others. -/
theorem extraction_defaults (content fname : String) :
    (npcRawMatch "id" content.toList = none →
      (processNpc content fname).1[1]? = some "ID = N/A") ∧
    (npcRawMatch "health" content.toList = none →
      (processNpc content fname).1[3]? = some "Health = 0") ∧
    (npcRawMatch "strength" content.toList = none →
      (processNpc content fname).1[4]? = some "Strength = N/A") ∧
    (npcRawMatch "agility" content.toList = none →
      (processNpc content fname).1[5]? = some "Agility = N/A") ∧
    (npcRawMatch "vitality" content.toList = none →
      (processNpc content fname).1[6]? = some "Vitality = N/A") ∧
    (npcRawMatch "grit" content.toList = none →
      (processNpc content fname).1[7]? = some "Grit = N/A") ∧
    (npcRawMatch "bonus_vitality" content.toList = none →
      (processNpc content fname).1[8]? = some "Bonus Vitality = N/A") ∧
    (npcRawMatch "level_rate" content.toList = none →
      (processNpc content fname).1[9]? = some "Level Rate = N/A") ∧
    (npcRawMatch "armor" content.toList = none →
      (processNpc content fname).1[10]? = some "Armor = N/A") ∧
    (npcRawMatch "damage_reduction" content.toList = none →
      (processNpc content fname).1[11]? = some "Incoming Damage Reduction = N/A") ∧
    (npcRawMatch "xp" content.toList = none →
      (processNpc content fname).1[12]? = some "Killed XP = 0") ∧
    (npcRawMatch "temperament" content.toList = none →
      (processNpc content fname).1[13]? = some "Temperament = N/A") ∧
    (npcRawMatch "gender" content.toList = none →
      (processNpc content fname).1[14]? = some "Gender = N/A") ∧
    (npcRawMatch "thrallable" content.toList = none →
      (processNpc content fname).1[15]? = some "Thrallable = N/A") ∧
    (npcRawMatch "race" content.toList = none →
      (processNpc content fname).1[16]? = some "Race = N/A") ∧
    (npcRawMatch "faction" content.toList = none →
      (processNpc content fname).1[17]? = some "Faction = N/A") ∧
    (npcRawMatch "notes" content.toList = none →
      (processNpc content fname).1[19]? = some "Notes = N/A") ∧
    (creatureRawMatch "id" content.toList = none →
      (processCreature content fname).1[1]? = some "ID = N/A") ∧
    (creatureRawMatch "health" content.toList = none →
      (processCreature content fname).1[3]? = some "Health = 0") ∧
    (creatureRawMatch "armor" content.toList = none →
      (processCreature content fname).1[10]? = some "Armor = 0") ∧
    (creatureRawMatch "killed_xp" content.toList = none →
      (processCreature content fname).1[12]? = some "Killed XP = 0") ∧
    (creatureRawMatch "temperament" content.toList = none →
      (processCreature content fname).1[13]? = some "Temperament = N/A") ∧
    (creatureRawMatch "race" content.toList = none →
      (processCreature content fname).1[16]? = some "Race = N/A") ∧
    (creatureRawMatch "notes" content.toList = none →
      (processCreature content fname).1[19]? = some "Notes = N/A") := by
  refine ⟨?_, ?_, ?_, ?_, ?_, ?_, ?_, ?_, ?_, ?_, ?_, ?_, ?_, ?_, ?_, ?_, ?_,
    ?_, ?_, ?_, ?_, ?_, ?_, ?_⟩
  · intro h
    have hv : npcFieldValue content "id" = "N/A" := by
      rw [npcFieldValue_default content "id" h]; rfl
    rw [processNpc_get_stable content fname 1 (by decide) (by decide)]
    simp [npcOutput, hv]
  · intro h
    have hv : npcFieldValue content "health" = "0" := by
      rw [npcFieldValue_default content "health" h]; rfl
    rw [processNpc_get_stable content fname 3 (by decide) (by decide)]
    simp [npcOutput, hv]
  · intro h
    have hv : npcFieldValue content "strength" = "N/A" := by
      rw [npcFieldValue_default content "strength" h]; rfl
    rw [processNpc_get_stable content fname 4 (by decide) (by decide)]
    simp [npcOutput, hv]
  · intro h
    have hv : npcFieldValue content "agility" = "N/A" := by
      rw [npcFieldValue_default content "agility" h]; rfl
    rw [processNpc_get_stable content fname 5 (by decide) (by decide)]
    simp [npcOutput, hv]
  · intro h
    have hv : npcFieldValue content "vitality" = "N/A" := by
      rw [npcFieldValue_default content "vitality" h]; rfl
    rw [processNpc_get_stable content fname 6 (by decide) (by decide)]
    simp [npcOutput, hv]
  · intro h
    have hv : npcFieldValue content "grit" = "N/A" := by
      rw [npcFieldValue_default content "grit" h]; rfl
    rw [processNpc_get_stable content fname 7 (by decide) (by decide)]
    simp [npcOutput, hv]
  · intro h
    have hv : npcFieldValue content "bonus_vitality" = "N/A" := by
      rw [npcFieldValue_default content "bonus_vitality" h]; rfl
    rw [processNpc_get_stable content fname 8 (by decide) (by decide)]
    simp [npcOutput, hv]
  · intro h
    have hv : npcFieldValue content "level_rate" = "N/A" := by
      rw [npcFieldValue_default content "level_rate" h]; rfl
    rw [processNpc_get_stable content fname 9 (by decide) (by decide)]
    simp [npcOutput, hv]
  · intro h
    have hv : npcFieldValue content "armor" = "N/A" := by
      rw [npcFieldValue_default content "armor" h]; rfl
    rw [processNpc_get_stable content fname 10 (by decide) (by decide)]
    simp [npcOutput, hv]
  · intro h
    have hv : npcFieldValue content "damage_reduction" = "N/A" := by
      rw [npcFieldValue_default content "damage_reduction" h]; rfl
    rw [processNpc_get_stable content fname 11 (by decide) (by decide)]
    simp [npcOutput, hv]
  · intro h
    have hv : npcFieldValue content "xp" = "0" := by
      rw [npcFieldValue_default content "xp" h]; rfl
    rw [processNpc_get_stable content fname 12 (by decide) (by decide)]
    simp [npcOutput, hv]
  · intro h
    have hv : npcFieldValue content "temperament" = "N/A" := by
      rw [npcFieldValue_default content "temperament" h]; rfl
    rw [processNpc_get_stable content fname 13 (by decide) (by decide)]
    simp [npcOutput, hv]
  · intro h
    have hv : npcFieldValue content "gender" = "N/A" := by
      rw [npcFieldValue_default content "gender" h]; rfl
    rw [processNpc_get_stable content fname 14 (by decide) (by decide)]
    simp [npcOutput, hv]
  · intro h
    have hv : npcFieldValue content "thrallable" = "N/A" := by
      rw [npcFieldValue_default content "thrallable" h]; rfl
    rw [processNpc_get_stable content fname 15 (by decide) (by decide)]
    simp [npcOutput, hv]
  · intro h
    have hv : npcFieldValue content "race" = "N/A" := by
      rw [npcFieldValue_default content "race" h]; rfl
    rw [processNpc_get_stable content fname 16 (by decide) (by decide)]
    simp [npcOutput, hv]
  · intro h
    have hv : npcFieldValue content "faction" = "N/A" := by
      rw [npcFieldValue_default content "faction" h]; rfl
    rw [processNpc_get_stable content fname 17 (by decide) (by decide)]
    simp [npcOutput, hv]
  · intro h
    have hv : npcFieldValue content "notes" = "N/A" := by
      rw [npcFieldValue_default content "notes" h]; rfl
    rw [processNpc_get_stable content fname 19 (by decide) (by decide)]
    simp [npcOutput, npcNotesValue, hv, ite_self, cleanNotes_na]
  · intro h
    have hv : creatureFieldValue content "id" = "N/A" := by
      rw [creatureFieldValue_default content "id" h]; rfl
    rw [processCreature_get_stable content fname 1 (by decide)]
    simp [creatureOutput, hv]
  · intro h
    have hv : creatureFieldValue content "health" = "0" := by
      rw [creatureFieldValue_default content "health" h]; rfl
    rw [processCreature_get_stable content fname 3 (by decide)]
    simp [creatureOutput, hv]
  · intro h
    have hv : creatureFieldValue content "armor" = "0" := by
      rw [creatureFieldValue_default content "armor" h]; rfl
    rw [processCreature_get_stable content fname 10 (by decide)]
    simp [creatureOutput, hv]
  · intro h
    have hv : creatureFieldValue content "killed_xp" = "0" := by
      rw [creatureFieldValue_default content "killed_xp" h]; rfl
    rw [processCreature_get_stable content fname 12 (by decide)]
    simp [creatureOutput, hv]
  · intro h
    have hv : creatureFieldValue content "temperament" = "N/A" := by
      rw [creatureFieldValue_default content "temperament" h]; rfl
    rw [processCreature_get_stable content fname 13 (by decide)]
    simp [creatureOutput, hv]
  · intro h
    have hv : creatureFieldValue content "race" = "N/A" := by
      rw [creatureFieldValue_default content "race" h]; rfl
    rw [processCreature_get_stable content fname 16 (by decide)]
    simp [creatureOutput, hv]
  · intro h
    have hv : creatureFieldValue content "notes" = "N/A" := by
      rw [creatureFieldValue_default content "notes" h]; rfl
    rw [processCreature_get_stable content fname 19 (by decide)]
    simp [creatureOutput, hv, cleanNotes_na]

/-- Witness for C2 (amended) on empty markup, where every pattern fails:
health falls to `0`, strength to `N/A`. -/
theorem extraction_defaults_witness :
    npcRawMatch "health" ("" : String).toList = none ∧
    npcRawMatch "strength" ("" : String).toList = none ∧
    (processNpc "" "f.txt").1[3]? = some "Health = 0" ∧
    (processNpc "" "f.txt").1[4]? = some "Strength = N/A" :=
  ⟨rfl, rfl, (extraction_defaults "" "f.txt").2.1 rfl,
    (extraction_defaults "" "f.txt").2.2.1 rfl⟩

end ConanWikiTools
